import Mathlib

/-!
Shallow embedding of the transformer training script `src/base/model.py`.

The tensor computations of the script are embedded at two levels:

* a *shape level*: every `torch` operation the script uses is given its
  PyTorch shape semantics (broadcasting, batched matrix product, linear
  layers, masking), and each `forward` method becomes a function from input
  shapes to `Except PyErr Shape`, mirroring the exact order of operations of
  the source so that shape mismatches surface exactly where Python raises;
* a *value level* for the pieces whose claims are about concrete values:
  the clipped relative-position offsets (lines 89-93), the batch sampler
  `get_batch` (lines 45-52), and the constructors `MultiHeadAttention.__init__`
  (lines 111-116), `Block.__init__` (lines 136-142) and
  `Transformer.__init__` (lines 198-209), including Python's calling
  convention for required keyword parameters.

Dropout is shape-preserving and value-irrelevant for the properties below,
softmax and GELU are shape-preserving; both facts are used where noted.
-/

set_option maxRecDepth 8192

/-! ### Hyperparameters of the source (model.py lines 31-41) -/

def batch_size : Nat := 8

def block_size : Nat := 16

def d_model : Nat := 64

def n_layers : Nat := 8

def n_head : Nat := 8

/-! ### Python runtime errors that the embedded operations can raise -/

inductive PyErr where
  | typeError
  | valueError
  | runtimeError
  | indexError
  | zeroDivisionError
deriving DecidableEq

/-! ### PyTorch shape semantics -/

/-- A tensor shape, outermost dimension first, as in `tensor.shape`. -/
abbrev Shape := List Nat

/-- Broadcasting of two shapes given with the *innermost* dimension first
(reversed), following the PyTorch rule: missing leading dimensions are
treated as 1; paired dimensions must be equal or one of them 1. -/
def bcastRev : List Nat → List Nat → Option (List Nat)
  | [], ys => some ys
  | xs, [] => some xs
  | x :: xs, y :: ys =>
    match bcastRev xs ys with
    | none => none
    | some rest =>
      if x = y then some (x :: rest)
      else if x = 1 then some (y :: rest)
      else if y = 1 then some (x :: rest)
      else none

/-- PyTorch broadcasting on shapes written outermost-first. -/
def broadcastShapes (a b : Shape) : Option Shape :=
  (bcastRev a.reverse b.reverse).map List.reverse

/-- Elementwise binary operation (`+`, `-`): broadcasts or raises
RuntimeError, as `torch` does. -/
def addShape (a b : Shape) : Except PyErr Shape :=
  match broadcastShapes a b with
  | some s => Except.ok s
  | none => Except.error PyErr.runtimeError

/-- `nn.Linear(inF, outF)` applied to a tensor: the last dimension must be
`inF` and becomes `outF`; other dimensions pass through. -/
def linearShape (inF outF : Nat) (s : Shape) : Except PyErr Shape :=
  match s.reverse with
  | [] => Except.error PyErr.runtimeError
  | last :: rest =>
    if last = inF then Except.ok ((outF :: rest).reverse)
    else Except.error PyErr.runtimeError

/-- `torch.matmul` for operands that are both at least 2-D: the last two
dimensions are multiplied as matrices (inner dimensions must agree), the
leading batch dimensions broadcast.  The script never multiplies 1-D
tensors, so those cases are left as errors. -/
def matmulShape (a b : Shape) : Except PyErr Shape :=
  match a.reverse, b.reverse with
  | m :: n :: aBatchRev, p :: m2 :: bBatchRev =>
    if m = m2 then
      match bcastRev aBatchRev bBatchRev with
      | some batchRev => Except.ok ((p :: n :: batchRev).reverse)
      | none => Except.error PyErr.runtimeError
    else Except.error PyErr.runtimeError
  | _, _ => Except.error PyErr.runtimeError

/-- `tensor.transpose(d1, d2)` for nonnegative dimension indices. -/
def transposeShape (d1 d2 : Nat) (s : Shape) : Except PyErr Shape :=
  if h1 : d1 < s.length then
    if h2 : d2 < s.length then
      Except.ok ((s.set d1 s[d2]).set d2 s[d1])
    else Except.error PyErr.indexError
  else Except.error PyErr.indexError

/-- `tensor.transpose(-2, -1)`: swap the last two dimensions. -/
def transposeLastTwo (s : Shape) : Except PyErr Shape :=
  match s.reverse with
  | a :: b :: rest => Except.ok ((b :: a :: rest).reverse)
  | _ => Except.error PyErr.indexError

/-- `tensor.masked_fill(mask, v)`: the mask must broadcast with the tensor. -/
def maskedFillShape (t mask : Shape) : Except PyErr Shape :=
  match broadcastShapes t mask with
  | some s => Except.ok s
  | none => Except.error PyErr.runtimeError

/-- `F.softmax(·, dim=-1)` keeps the shape (it needs at least one dim). -/
def softmaxLastShape (s : Shape) : Except PyErr Shape :=
  match s with
  | [] => Except.error PyErr.indexError
  | _ => Except.ok s

/-- `torch.cat` of `n` equal-shaped tensors along the last dimension. -/
def catLastShape (s : Shape) (n : Nat) : Except PyErr Shape :=
  match s.reverse with
  | [] => Except.error PyErr.runtimeError
  | last :: rest =>
    if n = 0 then Except.error PyErr.runtimeError
    else Except.ok ((n * last :: rest).reverse)

/-- `nn.LayerNorm(d)`: the last dimension must equal `d`; shape preserved. -/
def layerNormShape (d : Nat) (s : Shape) : Except PyErr Shape :=
  match s.reverse with
  | [] => Except.error PyErr.runtimeError
  | last :: _ =>
    if last = d then Except.ok s else Except.error PyErr.runtimeError

/-- `nn.Embedding(·, embDim)` on an index tensor appends the embedding
dimension (index-range obligations are discharged at each use site). -/
def embeddingShape (embDim : Nat) (idxShape : Shape) : Shape :=
  idxShape ++ [embDim]

/-- `B, T, C = x.shape`: ValueError unless the tensor is 3-D. -/
def shape3 (s : Shape) : Except PyErr (Nat × Nat × Nat) :=
  match s with
  | [b, t, c] => Except.ok (b, t, c)
  | _ => Except.error PyErr.valueError

/-- `B, T = x.shape`: ValueError unless the tensor is 2-D. -/
def shape2 (s : Shape) : Except PyErr (Nat × Nat) :=
  match s with
  | [b, t] => Except.ok (b, t)
  | _ => Except.error PyErr.valueError

/-! ### AttentionHead.forward, shape level (model.py lines 83-108)

`dm` is the width the projections expect (`d_model` at every call site),
`hs` the head size, `M` the `block_size` passed to `__init__`
(`max_relative_pos`, line 80, and the side of the `tril` buffer, line 77). -/

/-- Shape semantics of `AttentionHead.forward`, operation by operation in
source order.  Note line 93: the relative-embedding lookup is over the
index tensor `clipped_positions + M` of shape (B, T, T) whose entries lie
in `[0, 2*M]`, always inside the `(2*M+1)`-row table, so the lookup itself
never raises; it yields a 4-D tensor (B, T, T, hs). -/
def AttentionHead.forwardShape (dm hs M : Nat) (x : Shape) (mask : Bool) :
    Except PyErr Shape := do
  let (B, T, _C) ← shape3 x                                -- line 84
  let key ← linearShape dm hs x                            -- line 85
  let query ← linearShape dm hs x                          -- line 86
  -- line 89: positions = arange(T).unsqueeze(0).expand(B, -1) : (B, T)
  -- line 90: positions[:, :, None] - positions[:, None, :]
  let relPos ← addShape [B, T, 1] [B, 1, T]
  -- line 91: clamp keeps the shape; line 93: embedding lookup appends hs
  let relEmb := embeddingShape hs relPos
  let qwp ← addShape query relEmb                          -- line 94
  let relEmbT ← transposeShape 1 2 relEmb                  -- line 95
  let kwp ← addShape key relEmbT
  let kwpT ← transposeLastTwo kwp                          -- line 98
  let weights ← matmulShape qwp kwpT                       -- (scalar division keeps the shape)
  -- lines 100-101: tril[:T, :T] has shape (min T M, min T M)
  let weights ← if mask then maskedFillShape weights [min T M, min T M] else pure weights
  let weights ← softmaxLastShape weights                   -- line 103 (dropout, line 104, keeps it)
  let value ← linearShape dm hs x                          -- line 106
  matmulShape weights value                                 -- line 107

/-- Shape semantics of `MultiHeadAttention.forward` (lines 118-121): all
`n_head` heads receive the same `x` and `mask`, so their outputs have one
common shape; `torch.cat(..., dim=-1)` then the `proj` linear layer
(line 115: `nn.Linear(n_head * head_size, d_model)`) and dropout.
`head_size = d_model // n_head` is line 112. -/
def MultiHeadAttention.forwardShape (dm nh M : Nat) (x : Shape) (mask : Bool) :
    Except PyErr Shape := do
  let hs := dm / nh
  let h ← AttentionHead.forwardShape dm hs M x mask
  let cat ← catLastShape h nh
  linearShape (nh * hs) dm cat

/-- Shape semantics of `FeedForward.forward` (lines 123-134): Linear
`d -> 4d`, GELU (shape-preserving), Linear `4d -> d`, dropout. -/
def FeedForward.forwardShape (dm : Nat) (x : Shape) : Except PyErr Shape := do
  let a ← linearShape dm (4 * dm) x
  linearShape (4 * dm) dm a

/-- Shape semantics of `EncoderNetwork.forward` (lines 161-170). -/
def EncoderNetwork.forwardShape (dm nh M : Nat) (src : Shape) :
    Except PyErr Shape := do
  let src2 ← MultiHeadAttention.forwardShape dm nh M src false   -- line 162
  let src ← addShape src src2                                    -- line 163
  let src ← layerNormShape dm src                                -- line 164
  let src2 ← FeedForward.forwardShape dm src                     -- line 166
  let src ← addShape src src2                                    -- line 167
  layerNormShape dm src                                           -- line 168

/-- Shape semantics of `DecoderNetwork.forward` (lines 181-195): causal
self-attention on `src`, non-causal on `trg`, the single `norm1` module
used in both branches (lines 184 and 188 add the normalized tensor to the
running one), sum of the streams, feed-forward on a `norm2` copy, residual
add, final `norm2`. -/
def DecoderNetwork.forwardShape (dm nh M : Nat) (src trg : Shape) :
    Except PyErr Shape := do
  let src2 ← MultiHeadAttention.forwardShape dm nh M src true    -- line 182
  let src ← addShape src src2                                    -- line 183
  let srcN ← layerNormShape dm src
  let src ← addShape src srcN                                    -- line 184
  let trg2 ← MultiHeadAttention.forwardShape dm nh M trg false   -- line 186
  let trg ← addShape trg trg2                                    -- line 187
  let trgN ← layerNormShape dm trg
  let trg ← addShape trg trgN                                    -- line 188
  let srcF ← addShape src trg                                    -- line 190
  let n2 ← layerNormShape dm srcF
  let srcF2 ← FeedForward.forwardShape dm n2                     -- line 191
  let srcF ← addShape srcF srcF2                                 -- line 192
  layerNormShape dm srcF                                          -- line 193

/-! ### Transformer.forward and Transformer.generate, shape level
(model.py lines 219-255)

Python's calling convention matters here: `nn.Module.__call__` forwards its
positional arguments to `forward`, and a call with the wrong number of
positional arguments raises TypeError.  An argument is either a tensor
(carrying its shape) or the literal `None`. -/

inductive PyArg where
  | tensor (s : Shape)
  | noneArg

/-- Calling an `EncoderNetwork` layer: `def forward(self, src)` (line 161)
takes exactly one argument besides `self`, and it must be a tensor. -/
def EncoderNetwork.callShape (dm nh M : Nat) (args : List PyArg) :
    Except PyErr Shape :=
  match args with
  | [PyArg.tensor src] => EncoderNetwork.forwardShape dm nh M src
  | _ => Except.error PyErr.typeError

/-- Calling a `DecoderNetwork` layer: `def forward(self, src, trg)`
(line 181) takes exactly two tensor arguments. -/
def DecoderNetwork.callShape (dm nh M : Nat) (args : List PyArg) :
    Except PyErr Shape :=
  match args with
  | [PyArg.tensor src, PyArg.tensor trg] => DecoderNetwork.forwardShape dm nh M src trg
  | _ => Except.error PyErr.typeError

/-- Shape semantics of `Transformer.forward` (lines 219-244).  `V` is the
vocabulary size (supplied by the external tokenizer), `dm = d_model`,
`M = block_size`, `nl = n_layers`, `nh = n_head`.  Returns the shape of the
returned `logits` and, when targets are given, the shape of the scalar
loss (`some []`); `none` models the returned `loss = None`.

Line 223 indexes the `(block_size, d_model)` positional table with
`arange(T)`, an IndexError when `T > block_size`.  Line 227 calls every
encoder layer as `layer(x, None)` — two positional arguments.  Line 230
calls every decoder layer as `layer(x, x)`.  When targets are given, the
logits returned are the reshaped `(B*T, V)` tensor of line 240 and the
cross-entropy of line 242 is a 0-dimensional scalar (shape `[]`); its
value-level obligations (targets within `[0, V)`) are never reached. -/
def Transformer.forwardShape (V dm M nl nh : Nat) (idx : Shape)
    (targets : Option Shape) : Except PyErr (Shape × Option Shape) := do
  let (_B, T) ← shape2 idx                                 -- line 220
  let tok := embeddingShape dm idx                         -- line 222
  if M < T then throw PyErr.indexError else pure ()        -- line 223
  let pos : Shape := [T, dm]
  let x ← addShape tok pos                                 -- line 224
  let x ← (List.range nl).foldlM                           -- lines 226-227
    (fun s _ => EncoderNetwork.callShape dm nh M [PyArg.tensor s, PyArg.noneArg]) x
  let x ← (List.range nl).foldlM                           -- lines 229-230
    (fun s _ => DecoderNetwork.callShape dm nh M [PyArg.tensor s, PyArg.tensor s]) x
  let x ← layerNormShape dm x                              -- line 232
  let logits ← linearShape dm V x                          -- line 233
  match targets with
  | none => pure (logits, none)                            -- lines 235-236, 244
  | some tgt => do
    let (b, t, c) ← shape3 logits                          -- line 239
    if tgt = [b, t] then pure ([b * t, c], some [])        -- lines 240-242
    else throw PyErr.runtimeError

/-- Shape semantics of `Transformer.generate` (lines 246-255): each of the
`max_new_tokens` iterations crops the running sequence to its last
`block_size` columns, runs a forward pass without targets, selects the
last-time-step logits (line 250 requires 3-D logits), turns them into
probabilities, samples one token per batch row and appends it. -/
def Transformer.generateShape (V dm M nl nh : Nat) (idx : Shape)
    (maxNewTokens : Nat) : Except PyErr Shape := do
  (List.range maxNewTokens).foldlM (fun cur _ => do
      let (B, T) ← shape2 cur
      let cond : Shape := [B, min T M]                     -- line 248
      let (logits, _) ← Transformer.forwardShape V dm M nl nh cond none  -- line 249
      let _ ← shape3 logits                                -- line 250
      pure [B, T + 1]) idx                                 -- lines 251-253

/-! ### Relative-position offsets, value level (model.py lines 80, 89-93) -/

/-- `torch.clamp(z, lo, hi)` on integers. -/
def clamp (z lo hi : Int) : Int := min (max z lo) hi

/-- Line 90: `relative_positions[i][j] = i - j` for `i, j < T` (one batch
slice; the batch dimension of line 89 repeats this matrix unchanged). -/
def relativePositions (T : Nat) : List (List Int) :=
  (List.range T).map (fun i : Nat => (List.range T).map (fun j : Nat => (i : Int) - (j : Int)))

/-- Line 91: clamping to `[-max_relative_pos, max_relative_pos]`, where
`max_relative_pos = block_size` (line 80); `M` is that bound. -/
def clippedPositions (M T : Nat) : List (List Int) :=
  (relativePositions T).map (List.map (fun z => clamp z (-(M : Int)) (M : Int)))

/-- Entry of a matrix stored as a list of rows. -/
def entry (m : List (List Int)) (i j : Nat) : Int := (m.getD i []).getD j 0

/-! ### Batch sampler, value level (model.py lines 45-52) -/

/-- `get_batch`, with the start indices drawn by
`torch.randint(len(data) - block_size, (batch_size,))` (line 48) made an
explicit argument `ix`: row `r` of the first component is
`data[ix[r] : ix[r]+block_size]` (line 49), row `r` of the second is
`data[ix[r]+1 : ix[r]+block_size+1]` (line 50). -/
def get_batch (data ix : List Nat) : List (List Nat) × List (List Nat) :=
  (ix.map (fun i => (data.drop i).take block_size),
   ix.map (fun i => (data.drop (i + 1)).take block_size))

/-! ### Constructors, value level -/

/-- The state `MultiHeadAttention.__init__` (lines 111-116) builds:
`head_size = d_model // n_head` (line 112, Python floor division — a
ZeroDivisionError when `n_head = 0`, and *no* divisibility check), the
`proj` layer `nn.Linear(n_head * head_size, d_model)` (line 115), and the
number of heads (line 114). -/
structure MultiHeadAttentionCfg where
  headSize : Nat
  projIn : Nat
  projOut : Nat
  heads : Nat
deriving DecidableEq

/-- `MultiHeadAttention.__init__` (lines 111-116). -/
def MultiHeadAttention.init (dm nh : Nat) : Except PyErr MultiHeadAttentionCfg :=
  if nh = 0 then Except.error PyErr.zeroDivisionError
  else Except.ok ⟨dm / nh, nh * (dm / nh), dm, nh⟩

/-- Parameters of `MultiHeadAttention.__init__` (line 111), besides `self`;
none of them has a default value. -/
def MultiHeadAttention.initParams : List String :=
  ["d_model", "n_head", "dropout", "block_size"]

/-- The keyword arguments `Block.__init__` supplies at line 139:
`MultiHeadAttention(n_head=n_head, d_model=d_model, dropout=dropout)`. -/
def Block.saMaskedArgs : List String := ["n_head", "d_model", "dropout"]

/-- Python keyword-call check: the call succeeds only if every required
parameter receives an argument; otherwise TypeError
("missing required positional argument"). -/
def kwCallOk (params args : List String) : Bool :=
  params.all (fun p => args.contains p)

/-- `Block.__init__` (lines 136-142): the first statement after `super()`
constructs `sa_masked` with the argument list of line 139; the remaining
members (`ffwd`, `norm1`, `norm2`) construct without error. -/
def Block.init : Except PyErr Unit :=
  if kwCallOk MultiHeadAttention.initParams Block.saMaskedArgs then Except.ok ()
  else Except.error PyErr.typeError

/-- Attributes `Block.__init__` assigns (lines 139-142). -/
def Block.initAttrs : List String := ["sa_masked", "ffwd", "norm1", "norm2"]

/-- Attributes `Block.forward` reads (lines 144-150). -/
def Block.forwardAttrRefs : List String :=
  ["sa_unmasked", "ffwd", "norm1", "norm2", "sa_masked"]

/-- `Transformer.__init__` (lines 198-209): the embeddings of lines
200-201 construct fine; line 202 constructs `n_layers` `Block`s (the rest
of the body is never reached when a `Block` raises). -/
def Transformer.init : Except PyErr Unit := do
  let _ ← (List.range n_layers).mapM (fun _ => Block.init)
  Except.ok ()

/-! ### Claims C1, C2: the attention head's broadcasting defect

Line 94 adds `query` of shape (B, T, hs) to the 4-D relative-embedding
tensor of shape (B, T, T, hs).  PyTorch right-aligns the shapes, so the
pair (B, T) at dimension -3 must broadcast: the addition raises
RuntimeError whenever `B ≠ T` with both greater than 1 — including the
script's own training shapes B = batch_size = 8, T = block_size = 16 —
and when it does succeed the head returns a 4-D tensor, never the
documented (B, T, head_size). -/

/-- Claim C1 (code_bug): the claim asks that, with the causal flag set,
every above-diagonal attention weight be exactly zero for every (B, T, C)
input.  At the source's own training shape (B, T, C) = (8, 16, 64)
(batch_size, block_size, d_model; head size d_model / n_head = 8) the
forward pass instead fails with a broadcast RuntimeError at line 94, so no
attention weights exist at all. -/
theorem claim1_causal_mask_broadcast_failure :
    AttentionHead.forwardShape d_model (d_model / n_head) block_size [8, 16, 64] true
      = Except.error PyErr.runtimeError := rfl

/-- Claim C2 (code_bug): the claim asks for head output (B, T, head_size)
and multi-head output (B, T, d_model) on every valid input.  With
d_model = 64, n_head = 8 (head_size 8), block_size = 16: the head raises
at (B, T) = (2, 3); at (B, T) = (3, 3), where no broadcast fails, the head
returns shape (3, 3, 3, 8) and the multi-head (3, 3, 3, 64) — 4-D, not the
claimed 3-D shapes. -/
theorem claim2_attention_output_shape_defect :
    AttentionHead.forwardShape 64 8 16 [2, 3, 64] false = Except.error PyErr.runtimeError
  ∧ AttentionHead.forwardShape 64 8 16 [3, 3, 64] false = Except.ok [3, 3, 3, 8]
  ∧ ([3, 3, 3, 8] : Shape) ≠ [3, 3, 8]
  ∧ MultiHeadAttention.forwardShape 64 8 16 [3, 3, 64] false = Except.ok [3, 3, 3, 64]
  ∧ ([3, 3, 3, 64] : Shape) ≠ [3, 3, 64] :=
  ⟨rfl, rfl, by decide, rfl, by decide⟩

/-! ### Claims C5, C7, C8: Transformer.forward never returns

Line 227 calls every encoder layer as `layer(x, None)`, two positional
arguments for `EncoderNetwork.forward(self, src)`, which accepts one: a
TypeError on the very first encoder layer, before the decoder stack, the
final norm, the logits projection, the loss branch and the sampling step
of `generate` can run.  (Construction already fails earlier, claim C10.) -/

/-- Claim C5 (code_bug): the claim describes the full logits pipeline with
output shape (B, T, vocab_size).  At idx shape (2, 3) (T = 3 ≤ block_size)
with the source constants (vocab 50281 from the external p50k tokenizer,
d_model 64, block_size 16, n_layers 8, n_head 8) the forward pass raises
TypeError at the first encoder-layer call and never produces logits. -/
theorem claim5_forward_first_encoder_call_typeerror :
    Transformer.forwardShape 50281 d_model block_size n_layers n_head [2, 3] none
      = Except.error PyErr.typeError := rfl

/-- Claim C7 (code_bug): the claim says loss is `None` exactly without
targets and a mean cross-entropy with them.  With targets of shape (2, 3)
supplied, the forward pass still raises TypeError at the first
encoder-layer call (line 227), before the loss branch of lines 235-242 is
reached, so no (logits, loss) pair is ever returned. -/
theorem claim7_loss_branch_unreachable :
    Transformer.forwardShape 50281 d_model block_size n_layers n_head [2, 3] (some [2, 3])
      = Except.error PyErr.typeError := rfl

/-- Claim C8 (code_bug): the claim asks that a 1-token seed plus N
requested tokens yield a sequence of length 1 + N.  With seed shape (1, 1)
and N = 1 the first iteration's forward pass (line 249) raises TypeError
(line 227), so generation never appends a token. -/
theorem claim8_generate_typeerror :
    Transformer.generateShape 50281 d_model block_size n_layers n_head [1, 1] 1
      = Except.error PyErr.typeError := rfl

/-- Claim C6 (code_bug): the claim asks the decoder layer to return a
tensor of the same shape as its equal-shaped inputs.  The wiring (causal
attention on `src`, non-causal on `trg`, shared `norm1`, summed streams,
feed-forward on a `norm2` copy, final `norm2`) is as described, but the
attention sub-layer's broadcasting defect makes the layer raise
RuntimeError at src = trg of shape (2, 3, 64), and at shape (3, 3, 64) —
where nothing raises — return (3, 3, 3, 64), not the input shape. -/
theorem claim6_decoder_output_shape_defect :
    DecoderNetwork.forwardShape 64 8 16 [2, 3, 64] [2, 3, 64] = Except.error PyErr.runtimeError
  ∧ DecoderNetwork.forwardShape 64 8 16 [3, 3, 64] [3, 3, 64] = Except.ok [3, 3, 3, 64]
  ∧ ([3, 3, 3, 64] : Shape) ≠ [3, 3, 64] :=
  ⟨rfl, rfl, by decide⟩

/-! ### Claim C10: construction always raises -/

/-- Claim C10 (confirmed): `Transformer.__init__` (line 202) constructs
`n_layers = 8` `Block`s; `Block.__init__` (line 139) calls
`MultiHeadAttention(...)` without the required `block_size` parameter, a
TypeError, so constructing the model always raises before any forward pass
exists.  Moreover `Block.forward` reads the attribute `sa_unmasked`
(line 145) that `Block.__init__` never assigns. -/
theorem claim10_transformer_init_typeerror :
    Transformer.init = Except.error PyErr.typeError
  ∧ kwCallOk MultiHeadAttention.initParams Block.saMaskedArgs = false
  ∧ "sa_unmasked" ∈ Block.forwardAttrRefs
  ∧ "sa_unmasked" ∉ Block.initAttrs :=
  ⟨rfl, rfl, by decide, by decide⟩

/-! ### Claim C9: no divisibility check in MultiHeadAttention.__init__ -/

/-- Claim C9 counterexample: construction with d_model = 5, n_head = 2
(5 not divisible by 2) does *not* fail — lines 111-116 contain no check;
`head_size = 5 // 2 = 2` and the usable component projects the
concatenated 2·2 = 4 features back to d_model = 5. -/
theorem claim9_counterexample_init_succeeds :
    MultiHeadAttention.init 5 2 = Except.ok ⟨2, 4, 5, 2⟩ ∧ ¬ (5 % 2 = 0) :=
  ⟨rfl, by decide⟩

/-- Claim C9 amended: construction performs no divisibility validation at
all — for every n_head ≥ 1 it succeeds, with head_size the floor
⌊d_model / n_head⌋ and an output projection from n_head·head_size features
back to d_model; only n_head = 0 fails (ZeroDivisionError from `//`). -/
theorem claim9_no_divisibility_check (dm nh : Nat) (h : 0 < nh) :
    MultiHeadAttention.init dm nh = Except.ok ⟨dm / nh, nh * (dm / nh), dm, nh⟩ := by
  unfold MultiHeadAttention.init
  rw [if_neg (by omega)]

theorem claim9_witness :
    0 < 2 ∧ MultiHeadAttention.init 5 2 = Except.ok ⟨5 / 2, 2 * (5 / 2), 5, 2⟩ :=
  ⟨by decide, claim9_no_divisibility_check 5 2 (by decide)⟩

/-! ### Claim C3: clipped offsets and their antisymmetry -/

/-- `torch.clamp` on a symmetric interval commutes with negation. -/
theorem clamp_neg (M a : Int) (hM : 0 ≤ M) : clamp (-a) (-M) M = - clamp a (-M) M := by
  simp only [clamp, min_def, max_def]
  split_ifs <;> omega

/-- Reading an in-range position of a mapped range. -/
theorem getD_range_map {α : Type} (f : Nat → α) (d : α) (T i : Nat) (h : i < T) :
    ((List.range T).map f).getD i d = f i := by
  rw [List.getD_eq_getElem _ _ (by simpa using h), List.getElem_map, List.getElem_range]

/-- The (i, j) entry of the clipped-offset matrix of lines 90-91. -/
theorem clippedPositions_entry (M T i j : Nat) (hi : i < T) (hj : j < T) :
    entry (clippedPositions M T) i j = clamp ((i : Int) - (j : Int)) (-(M : Int)) (M : Int) := by
  unfold entry clippedPositions relativePositions
  rw [List.map_map, getD_range_map _ _ _ _ hi]
  simp only [Function.comp_apply]
  rw [List.map_map, getD_range_map _ _ _ _ hj]
  simp only [Function.comp_apply]

/-- Claim C3 (confirmed): for every sequence length `T` and positions
`i, j < T`, the clipped relative offset of lines 89-91 equals `i - j`
clamped to `[-M, M]` (with `M = max_relative_pos = block_size`, line 80),
and swapping `(i, j)` to `(j, i)` negates it — the offset map is
antisymmetric under reflection. -/
theorem claim3_clipped_offset_antisym (M T i j : Nat) (hi : i < T) (hj : j < T) :
    entry (clippedPositions M T) i j = clamp ((i : Int) - (j : Int)) (-(M : Int)) (M : Int)
  ∧ entry (clippedPositions M T) j i = - entry (clippedPositions M T) i j := by
  refine ⟨clippedPositions_entry M T i j hi hj, ?_⟩
  rw [clippedPositions_entry M T j i hj hi, clippedPositions_entry M T i j hi hj,
    show ((j : Int) - (i : Int)) = -((i : Int) - (j : Int)) by ring,
    clamp_neg _ _ (by positivity)]

theorem claim3_witness :
    2 < 3 ∧ 0 < 3
  ∧ (entry (clippedPositions 2 3) 2 0 = clamp ((2 : Int) - (0 : Int)) (-(2 : Int)) (2 : Int)
      ∧ entry (clippedPositions 2 3) 0 2 = - entry (clippedPositions 2 3) 2 0) :=
  ⟨by decide, by decide, claim3_clipped_offset_antisym 2 3 2 0 (by decide) (by decide)⟩

/-! ### Claim C4: the batch sampler's shifted windows -/

/-- Reading an in-range position of a mapped list. -/
theorem getD_map_getD {α β : Type} (f : α → β) (l : List α) (d : β) (d0 : α) (r : Nat)
    (h : r < l.length) : (l.map f).getD r d = f (l.getD r d0) := by
  rw [List.getD_eq_getElem _ _ (by simpa using h), List.getElem_map,
    List.getD_eq_getElem _ _ h]

/-- Entry `t` of the window `data[i : i+bs]`. -/
theorem take_drop_getD (data : List Nat) (i bs t : Nat) (ht : t < bs)
    (h : i + bs ≤ data.length) :
    ((data.drop i).take bs).getD t 0 = data.getD (i + t) 0 := by
  have hlen : ((data.drop i).take bs).length = bs := by
    simp only [List.length_take, List.length_drop]
    omega
  rw [List.getD_eq_getElem _ _ (by omega), List.getD_eq_getElem _ _ (by omega)]
  rw [List.getElem_take, List.getElem_drop]

/-- Length of the window `data[i : i+bs]`. -/
theorem take_drop_len (data : List Nat) (i bs : Nat) (h : i + bs ≤ data.length) :
    ((data.drop i).take bs).length = bs := by
  simp only [List.length_take, List.length_drop]
  omega

/-- Claim C4 (confirmed): for a partition longer than `block_size`, with
the `batch_size` start indices drawn by `torch.randint` in
`[0, len(data) - block_size)` (line 48) taken as the argument `ix`, the
sampler returns two `batch_size × block_size` matrices whose row `r` holds
`data[ix[r] + t]` (inputs) and `data[ix[r] + 1 + t]` (targets); hence
every target row is the corresponding input row shifted by exactly one
position in the source partition. -/
theorem claim4_get_batch_shifted_windows (data ix : List Nat)
    (hlen : block_size < data.length)
    (hix : ∀ i ∈ ix, i < data.length - block_size)
    (hbs : ix.length = batch_size) :
    (get_batch data ix).1.length = batch_size
  ∧ (get_batch data ix).2.length = batch_size
  ∧ (∀ r < batch_size, ((get_batch data ix).1.getD r []).length = block_size
      ∧ ((get_batch data ix).2.getD r []).length = block_size)
  ∧ (∀ r < batch_size, ∀ t < block_size,
      ((get_batch data ix).1.getD r []).getD t 0 = data.getD (ix.getD r 0 + t) 0
    ∧ ((get_batch data ix).2.getD r []).getD t 0 = data.getD (ix.getD r 0 + 1 + t) 0)
  ∧ (∀ r < batch_size, ∀ t, t + 1 < block_size →
      ((get_batch data ix).2.getD r []).getD t 0
        = ((get_batch data ix).1.getD r []).getD (t + 1) 0) := by
  have hr : ∀ r, r < batch_size → r < ix.length := by omega
  have hkey : ∀ r, r < batch_size → ix.getD r 0 + block_size < data.length := by
    intro r hrb
    have hmem : ix.getD r 0 ∈ ix := by
      rw [List.getD_eq_getElem _ _ (hr r hrb)]
      exact List.getElem_mem _
    have := hix _ hmem
    omega
  refine ⟨by simp [get_batch, hbs], by simp [get_batch, hbs], ?_, ?_, ?_⟩
  · intro r hrb
    unfold get_batch
    rw [getD_map_getD _ _ _ 0 _ (hr r hrb), getD_map_getD _ _ _ 0 _ (hr r hrb)]
    exact ⟨take_drop_len _ _ _ (by have := hkey r hrb; omega),
      take_drop_len _ _ _ (by have := hkey r hrb; omega)⟩
  · intro r hrb t ht
    unfold get_batch
    rw [getD_map_getD _ _ _ 0 _ (hr r hrb), getD_map_getD _ _ _ 0 _ (hr r hrb)]
    rw [take_drop_getD _ _ _ _ ht (by have := hkey r hrb; omega),
      take_drop_getD _ _ _ _ ht (by have := hkey r hrb; omega)]
    exact ⟨rfl, rfl⟩
  · intro r hrb t ht
    unfold get_batch
    rw [getD_map_getD _ _ _ 0 _ (hr r hrb), getD_map_getD _ _ _ 0 _ (hr r hrb)]
    rw [take_drop_getD _ _ _ _ (by omega) (by have := hkey r hrb; omega),
      take_drop_getD _ _ _ _ (by omega) (by have := hkey r hrb; omega)]
    congr 1
    omega

theorem claim4_witness :
    block_size < (List.range 20).length
  ∧ (∀ i ∈ ([0, 1, 2, 3, 0, 1, 2, 3] : List Nat), i < (List.range 20).length - block_size)
  ∧ ([0, 1, 2, 3, 0, 1, 2, 3] : List Nat).length = batch_size
  ∧ ((get_batch (List.range 20) [0, 1, 2, 3, 0, 1, 2, 3]).2.getD 0 []).getD 0 0
      = ((get_batch (List.range 20) [0, 1, 2, 3, 0, 1, 2, 3]).1.getD 0 []).getD 1 0 :=
  ⟨by decide, by decide, by decide,
    (claim4_get_batch_shifted_windows (List.range 20) [0, 1, 2, 3, 0, 1, 2, 3]
      (by decide) (by decide) (by decide)).2.2.2.2 0 (by decide) 0 (by decide)⟩
